import Mathlib

/-!
Shallow embedding of `src/main.py` (SEO suggestion API).

The external SerpApi autocomplete call is modelled by a `FetchResult`
parameter: either the provider succeeded with a raw list of suggestion
strings, or it raised an exception whose message is a string.  Every
function of the source that calls `get_google_autocomplete_suggestions`
takes the `FetchResult` as an explicit argument, standing for the outcome
of the network call it performs.

Python string operations are embedded over `List Char` (`String.data`):
`str.lower()` maps `Char.toLower` over the characters, `a in b` is
contiguous-substring containment, and `str.split()` splits on whitespace
runs discarding empty pieces.  Python's
`int((matched / max(len(keywords), 1)) * 100)` is embedded in the scorer
definitions as exact rational arithmetic rounded down, i.e. natural-number
division `matched * 100 / max len 1`.  That idealization is provably exact
for `calculate_trending_score`, whose denominator never exceeds 10, but
CPython evaluates the SEO score's expression in IEEE-754 binary64
arithmetic, which can land one below the exact floor for reachable
keyword counts (e.g. 29 matched of 50); `pyFloatScore` models the
double-precision evaluation of that line exactly, in integer arithmetic.
-/

/-- Outcome of the external SerpApi autocomplete request performed inside
`get_google_autocomplete_suggestions`: the provider either returns a raw
list of suggestion values, or the call raises with an error message. -/
inductive FetchResult where
  | ok (raw : List String)
  | err (msg : String)
deriving DecidableEq

/-- `str.lower()` of Python, on the character list of a string. -/
def lowerChars (s : String) : List Char := s.data.map Char.toLower

/-- `str.lower()` of Python, as a string. -/
def strLower (s : String) : String := String.mk (lowerChars s)

/-- Boolean test that `n` is a prefix of `h` (character lists). -/
def isPrefixB : List Char → List Char → Bool
  | [], _ => true
  | _ :: _, [] => false
  | a :: as, b :: bs => a == b && isPrefixB as bs

/-- Boolean test that `n` is a contiguous substring of `h`: Python's
`n in h` on strings, over character lists. -/
def isInfixB (n : List Char) : List Char → Bool
  | [] => isPrefixB n []
  | c :: t => isPrefixB n (c :: t) || isInfixB n t

/-- Python's `a in b` on strings: `a` occurs contiguously inside `b`. -/
def substrB (needle haystack : String) : Bool :=
  isInfixB needle.data haystack.data

/-- Helper for `splitWords`: `cur` is the current word being read,
in reverse. -/
def splitWordsAux : List Char → List Char → List (List Char)
  | cur, [] => if cur.isEmpty then [] else [cur.reverse]
  | cur, c :: cs =>
    if c.isWhitespace then
      if cur.isEmpty then splitWordsAux [] cs
      else cur.reverse :: splitWordsAux [] cs
    else splitWordsAux (c :: cur) cs

/-- Python's no-argument `str.split()`: split on runs of whitespace,
discarding empty pieces. -/
def splitWords (s : String) : List String :=
  (splitWordsAux [] s.data).map String.mk

/-- `get_google_autocomplete_suggestions(topic, max_results=10)` of
`src/main.py` lines 25-40.  The `try` body truncates the provider's raw
suggestion list to `max_results` and substitutes the one-element sentinel
list when the truncation is empty (Python's
`suggestions if suggestions else ["No suggestions found"]`); the
`except` branch returns the one-element list `["Error: <msg>"]`.
The topic string only feeds the outbound query, i.e. the `FetchResult`. -/
def get_google_autocomplete_suggestions (fetch : FetchResult)
    (max_results : Nat := 10) : List String :=
  match fetch with
  | FetchResult.ok raw =>
    let suggestions := raw.take max_results
    if suggestions.isEmpty then ["No suggestions found"] else suggestions
  | FetchResult.err e => ["Error: " ++ e]

/-- `calculate_seo_score(topic, keywords)` of `src/main.py` lines 43-56.
A keyword counts as matched when some suggestion other than the literal
string `"No suggestions found"` contains its lowercase form or is
contained in it.  The surrounding `try/except` is dead code in the
embedding: no operation of the body can raise (the fetch itself never
raises, see `get_google_autocomplete_suggestions`).  The final division
idealizes the source's float expression `int((matched / max(len, 1)) * 100)`
as exact rounded-down arithmetic; the binary64 evaluation the program
actually performs is modelled separately by `pyFloatScore`. -/
def calculate_seo_score (fetch : FetchResult) (topic : String)
    (keywords : List String) : Nat :=
  let suggestions := get_google_autocomplete_suggestions fetch
  let matched := keywords.countP (fun kw =>
    suggestions.any (fun s =>
      s != "No suggestions found" &&
      (substrB (strLower kw) (strLower s) || substrB (strLower s) (strLower kw))))
  let _ := topic
  matched * 100 / max keywords.length 1

/-- `calculate_trending_score(topic)` of `src/main.py` lines 59-73.
Counts the suggestions other than the sentinel that contain some
lowercase word of the topic; the denominator is the whole fetched list's
length.  The `try/except` is dead code as in `calculate_seo_score`. -/
def calculate_trending_score (fetch : FetchResult) (topic : String) : Nat :=
  let suggestions := get_google_autocomplete_suggestions fetch
  let words := splitWords (strLower topic)
  let count := suggestions.countP (fun sug =>
    sug != "No suggestions found" &&
    words.any (fun word => substrB word (strLower sug)))
  count * 100 / max suggestions.length 1

/-- Python's `list(dict.fromkeys(l))` (`src/main.py` line 80): remove
duplicates keeping the first occurrence.  `seen` accumulates the
elements already emitted. -/
def dedupFirstAux (seen : List String) : List String → List String
  | [] => []
  | a :: l =>
    if a ∈ seen then dedupFirstAux seen l
    else a :: dedupFirstAux (a :: seen) l

/-- `get_related_keywords(topic, input_keywords, max_results=10)` of
`src/main.py` lines 76-85: concatenate the fetched suggestions with the
input keywords, deduplicate keeping first occurrences, truncate to
`max_results`.  The `except` branch (`return input_keywords[:max_results]`)
is dead code: `get_google_autocomplete_suggestions` never raises, and
neither do the list operations. -/
def get_related_keywords (fetch : FetchResult) (topic : String)
    (input_keywords : List String) (max_results : Nat := 10) : List String :=
  let suggestions := get_google_autocomplete_suggestions fetch max_results
  let _ := topic
  (dedupFirstAux [] (suggestions ++ input_keywords)).take max_results

/-- `suggest_text_improvements(topic, keywords)` of `src/main.py` lines
88-107.  When the lowercased topic splits into no words, Python's
`topic_words[0]` raises `IndexError` inside rule 1 and the `except`
branch returns the fixed fallback message; this is the `[]` case of the
match.  Otherwise the three rules fire independently, in order, and the
triggered messages are joined with `"; "`. -/
def suggest_text_improvements (topic : String) (keywords : List String) : String :=
  let topic_words := splitWords (strLower topic)
  match topic_words with
  | [] => "Unable to generate suggestions due to an error."
  | w0 :: _ =>
    let keywords_lower := keywords.map strLower
    let s1 : List String :=
      if !(keywords_lower.any (fun kw => substrB w0 kw)) then
        ["Add keywords including main topic word \x27" ++ w0 ++ "\x27"]
      else []
    let s2 : List String :=
      if keywords.any (fun k => (splitWords k).length > 4) then
        ["Avoid very long keywords; keep keywords concise (max 4 words)"]
      else []
    let s3 : List String :=
      if keywords.isEmpty then ["Add relevant keywords related to your topic"]
      else []
    let suggestions := s1 ++ s2 ++ s3
    if suggestions.isEmpty then "Keywords and topic look good."
    else "Suggestions: " ++ String.intercalate "; " suggestions

/-! ### Exact model of the IEEE-754 binary64 evaluation of the score line.

`src/main.py` line 51 computes `int((matched / max(len(keywords), 1)) * 100)`
in CPython float (= IEEE-754 binary64) arithmetic: one correctly rounded
division, one correctly rounded multiplication by 100 (itself exactly
representable), then truncation toward zero.  The following definitions
track the double values as exact rational pairs in integer arithmetic,
valid on the normal (non-subnormal, non-overflowing) range, which covers
every value this line can produce for physically reachable list lengths. -/

/-- Fuel-driven helper for `log2Nat`; `fuel = n` always suffices. -/
def log2NatAux : Nat → Nat → Nat
  | 0, _ => 0
  | fuel + 1, n => if n ≤ 1 then 0 else log2NatAux fuel (n / 2) + 1

/-- `⌊log2 n⌋` for `n ≥ 1` (and 0 at 0), by structural recursion. -/
def log2Nat (n : Nat) : Nat := log2NatAux n n

/-- The integer nearest to `a / b` (for `b > 0`), ties to even: the IEEE
round-to-nearest-even rule applied to a nonnegative rational. -/
def roundHalfEvenDiv (a b : Nat) : Nat :=
  let q := a / b
  let r := a % b
  if 2 * r < b then q
  else if b < 2 * r then q + 1
  else if q % 2 = 0 then q else q + 1

/-- `⌊log2 (a / b)⌋` for `a, b ≥ 1`: the bit-length difference is off by at
most one, corrected by a single comparison. -/
def ratFloorLog2 (a b : Nat) : Int :=
  let e0 : Int := (log2Nat a : Int) - (log2Nat b : Int)
  if 0 ≤ e0 then
    (if a < b * 2 ^ e0.toNat then e0 - 1 else e0)
  else
    (if a * 2 ^ (-e0).toNat < b then e0 - 1 else e0)

/-- The IEEE-754 binary64 value nearest to the positive rational `a / b`,
returned as an exact rational pair: the significand is `a / b` scaled to
`[2^52, 2^53]` and rounded to nearest, ties to even (normal range). -/
def roundDoubleRat (a b : Nat) : Nat × Nat :=
  let e := ratFloorLog2 a b
  let s : Int := 52 - e
  if 0 ≤ s then
    (roundHalfEvenDiv (a * 2 ^ s.toNat) b, 2 ^ s.toNat)
  else
    (roundHalfEvenDiv a (b * 2 ^ (-s).toNat) * 2 ^ (-s).toNat, 1)

/-- CPython's value of `int((m / d) * 100)` from `src/main.py` line 51
(`d ≥ 1`): round `m / d` to the nearest double, multiply by 100 and round
again, truncate toward zero (= floor, the value being nonnegative). -/
def pyFloatScore (m d : Nat) : Nat :=
  if m = 0 then 0
  else
    let q1 := roundDoubleRat m d
    let q2 := roundDoubleRat (q1.1 * 100) q1.2
    q2.1 / q2.2

example : substrB "seo" (strLower "SEO tips") = true := by decide
example : splitWords " best running  shoes " = ["best", "running", "shoes"] := by decide
example : splitWords "" = [] := by decide
example : calculate_trending_score (FetchResult.err "x") "error" = 100 := by decide
example : calculate_seo_score (FetchResult.ok ["best seo tools"]) "t" ["SEO", "zzz"] = 50 := by decide
example : get_related_keywords (FetchResult.err "x") "t" ["a"] 10 = ["Error: x", "a"] := by decide
example : suggest_text_improvements "" [] = "Unable to generate suggestions due to an error." := by decide
example : suggest_text_improvements "seo tips" ["seo"] = "Keywords and topic look good." := by decide
example : calculate_trending_score (FetchResult.ok ["No suggestions found", "seo tips"]) "seo" = 50 := by decide

/- Validation of `pyFloatScore` against CPython (`int((m/d)*100)`), on
inputs where the double evaluation agrees with the exact floor and on the
known divergent ones (29/50 → 57, 29/100 → 28, 57/100 → 56, 58/100 → 57). -/
example : pyFloatScore 0 1 = 0 := by decide
example : pyFloatScore 1 1 = 100 := by decide
example : pyFloatScore 1 2 = 50 := by decide
example : pyFloatScore 1 3 = 33 := by decide
example : pyFloatScore 2 3 = 66 := by decide
example : pyFloatScore 3 7 = 42 := by decide
example : pyFloatScore 7 20 = 35 := by decide
example : pyFloatScore 23 40 = 57 := by decide
example : pyFloatScore 11 17 = 64 := by decide
example : pyFloatScore 13 14 = 92 := by decide
example : pyFloatScore 29 58 = 50 := by decide
example : pyFloatScore 41 50 = 82 := by decide
example : pyFloatScore 99 100 = 99 := by decide
example : pyFloatScore 50 87 = 57 := by decide
example : pyFloatScore 29 50 = 57 := by decide
example : pyFloatScore 29 100 = 28 := by decide
example : pyFloatScore 57 100 = 56 := by decide
example : pyFloatScore 58 100 = 57 := by decide

/-! ### Bridge lemmas between the executable Boolean operations and their
propositional counterparts. -/

theorem strLower_data (s : String) : (strLower s).data = lowerChars s := rfl

theorem isPrefixB_iff (n : List Char) : ∀ h : List Char, isPrefixB n h = true ↔ n <+: h := by
  induction n with
  | nil =>
    intro h
    simp only [isPrefixB]
    exact iff_of_true trivial ⟨h, rfl⟩
  | cons a as ih =>
    intro h
    cases h with
    | nil =>
      simp only [isPrefixB, List.prefix_nil]
      simp
    | cons b bs =>
      simp only [isPrefixB, List.cons_prefix_cons, Bool.and_eq_true, beq_iff_eq, ih bs]

theorem isInfixB_iff (n : List Char) : ∀ h : List Char, isInfixB n h = true ↔ n <:+: h := by
  intro h
  induction h with
  | nil =>
    cases n with
    | nil =>
      simp only [isInfixB, isPrefixB, List.infix_nil]
    | cons a as =>
      simp only [isInfixB, isPrefixB, List.infix_nil]
      simp
  | cons c t ih =>
    simp only [isInfixB, Bool.or_eq_true, isPrefixB_iff, ih, List.infix_cons_iff]

theorem substrB_iff (a b : String) : substrB a b = true ↔ a.data <:+: b.data :=
  isInfixB_iff a.data b.data

/-! ### Lemmas about first-occurrence deduplication. -/

theorem mem_dedupFirstAux (a : String) (l : List String) :
    ∀ seen, a ∈ dedupFirstAux seen l ↔ a ∈ l ∧ a ∉ seen := by
  induction l with
  | nil => intro seen; simp [dedupFirstAux]
  | cons b l ih =>
    intro seen
    by_cases hb : b ∈ seen
    · rw [dedupFirstAux, if_pos hb, ih seen]
      constructor
      · rintro ⟨h1, h2⟩
        exact ⟨List.mem_cons_of_mem _ h1, h2⟩
      · rintro ⟨h1, h2⟩
        rcases List.mem_cons.mp h1 with rfl | h1
        · exact absurd hb h2
        · exact ⟨h1, h2⟩
    · rw [dedupFirstAux, if_neg hb]
      simp only [List.mem_cons, ih (b :: seen)]
      by_cases hab : a = b
      · subst hab
        simp [hb]
      · simp [hab]

theorem nodup_dedupFirstAux (l : List String) :
    ∀ seen, (dedupFirstAux seen l).Nodup := by
  induction l with
  | nil => intro seen; simp [dedupFirstAux]
  | cons b l ih =>
    intro seen
    by_cases hb : b ∈ seen
    · rw [dedupFirstAux, if_pos hb]
      exact ih seen
    · rw [dedupFirstAux, if_neg hb]
      refine List.nodup_cons.mpr ⟨?_, ih (b :: seen)⟩
      intro hmem
      exact ((mem_dedupFirstAux b l (b :: seen)).mp hmem).2 (List.mem_cons_self b seen)

theorem sublist_dedupFirstAux (l : List String) :
    ∀ seen, (dedupFirstAux seen l).Sublist l := by
  induction l with
  | nil => intro seen; simp [dedupFirstAux]
  | cons b l ih =>
    intro seen
    by_cases hb : b ∈ seen
    · rw [dedupFirstAux, if_pos hb]
      exact (ih seen).trans (List.sublist_cons_self b l)
    · rw [dedupFirstAux, if_neg hb]
      exact List.Sublist.cons₂ b (ih (b :: seen))

theorem dedupFirstAux_append (l₂ : List String) :
    ∀ (l₁ seen : List String), ∃ s₂ : List String,
      dedupFirstAux seen (l₁ ++ l₂) = dedupFirstAux seen l₁ ++ dedupFirstAux s₂ l₂ ∧
      ∀ a, a ∈ s₂ ↔ a ∈ seen ∨ a ∈ l₁ := by
  intro l₁
  induction l₁ with
  | nil =>
    intro seen
    refine ⟨seen, by simp [dedupFirstAux], fun a => by simp⟩
  | cons b t ih =>
    intro seen
    by_cases hb : b ∈ seen
    · obtain ⟨s₂, he, hm⟩ := ih seen
      refine ⟨s₂, ?_, ?_⟩
      · rw [List.cons_append, dedupFirstAux, if_pos hb, he, dedupFirstAux, if_pos hb]
      · intro a
        rw [hm a, List.mem_cons]
        by_cases hab : a = b
        · subst hab; simp [hb]
        · simp [hab]
    · obtain ⟨s₂, he, hm⟩ := ih (b :: seen)
      refine ⟨s₂, ?_, ?_⟩
      · rw [List.cons_append, dedupFirstAux, if_neg hb, he, dedupFirstAux, if_neg hb,
          List.cons_append]
      · intro a
        rw [hm a, List.mem_cons, List.mem_cons]
        by_cases hab : a = b
        · subst hab; simp
        · simp [hab]

/-- Arithmetic core of the score bound: the Python expression
`int((m / max(d, 1)) * 100)` with `m ≤ d` never exceeds 100. -/
theorem score_div_le_100 (m d : Nat) (h : m ≤ d) : m * 100 / max d 1 ≤ 100 := by
  have h1 : 0 < max d 1 := lt_of_lt_of_le Nat.one_pos (le_max_right d 1)
  have h2 : m * 100 ≤ max d 1 * 100 :=
    Nat.mul_le_mul_right 100 (le_trans h (le_max_left d 1))
  calc m * 100 / max d 1 ≤ max d 1 * 100 / max d 1 := Nat.div_le_div_right h2
    _ = 100 := by rw [Nat.mul_comm]; exact Nat.mul_div_cancel 100 h1

/-! ### Claim theorems. -/

/-- Specification-side matching predicate of claim C1: keyword `kw` is
matched when some suggestion other than the sentinel `"No suggestions
found"` satisfies case-insensitive substring containment in either
direction. -/
def keywordMatched (suggestions : List String) (kw : String) : Prop :=
  ∃ s ∈ suggestions, s ≠ "No suggestions found" ∧
    (lowerChars kw <:+: lowerChars s ∨ lowerChars s <:+: lowerChars kw)

instance (S : List String) (kw : String) : Decidable (keywordMatched S kw) := by
  unfold keywordMatched
  infer_instance

/-- Exact-arithmetic characterization of the embedded `calculate_seo_score`:
a keyword of `K` is counted as matched exactly when some fetched suggestion
other than the sentinel `"No suggestions found"` contains its lowercase form
or is contained in it, and the idealized score is `matched * 100 / max |K| 1`
rounded down.  The matched-count part is faithful to the source; the floor
formula is the idealization of the source's float expression, from which the
program's binary64 evaluation diverges on reachable inputs (claim C1). -/
theorem calculate_seo_score_matches_spec (fetch : FetchResult) (topic : String)
    (K : List String) :
    calculate_seo_score fetch topic K =
      (K.countP fun kw =>
        decide (keywordMatched (get_google_autocomplete_suggestions fetch 10) kw)) * 100 /
        max K.length 1 := by
  simp only [calculate_seo_score]
  congr 1
  congr 1
  apply List.countP_congr
  intro kw _
  simp only [List.any_eq_true, Bool.and_eq_true, Bool.or_eq_true, bne_iff_ne,
    substrB_iff, strLower_data, decide_eq_true_eq, keywordMatched]

/-- C1: the claimed floor formula is false of the program.  At the failing
input — fetch succeeding with the single suggestion `"a"`, keywords given
by 29 copies of `"a"` and 21 copies of `"zz"` — the keyword list has length
50 and exactly 29 keywords are matched under the (faithful) counting rule,
so `src/main.py` line 51 computes `int((29 / 50) * 100)`.  The claim's
exact floor is `29 * 100 / max 50 1 = 58`, but the IEEE-754 binary64
evaluation the program performs, modelled exactly by `pyFloatScore`,
yields 57: `29/50` rounds to the double `0.57999999999999996...`, whose
product with 100 rounds to `57.99999999999999289...`, and `int` truncates
to 57.  The exact-arithmetic idealization `calculate_seo_score` returns
the claimed 58 there, exhibiting the slip. -/
theorem seo_score_float_divergence :
    (List.replicate 29 "a" ++ List.replicate 21 "zz").length = 50 ∧
    (List.replicate 29 "a" ++ List.replicate 21 "zz").countP (fun kw =>
      decide (keywordMatched
        (get_google_autocomplete_suggestions (FetchResult.ok ["a"]) 10) kw)) = 29 ∧
    pyFloatScore 29 (max 50 1) = 57 ∧
    29 * 100 / max 50 1 = 58 ∧
    calculate_seo_score (FetchResult.ok ["a"]) "t"
      (List.replicate 29 "a" ++ List.replicate 21 "zz") = 58 :=
  ⟨by decide, by decide, by decide, by decide, by decide⟩

/-- C2: for every fetch outcome, topic and keyword list, the SEO score and
the trending score are integers in the closed interval [0, 100]. -/
theorem scores_within_0_100 (fetch : FetchResult) (topic : String) (K : List String) :
    0 ≤ calculate_seo_score fetch topic K ∧ calculate_seo_score fetch topic K ≤ 100 ∧
    0 ≤ calculate_trending_score fetch topic ∧ calculate_trending_score fetch topic ≤ 100 := by
  refine ⟨Nat.zero_le _, ?_, Nat.zero_le _, ?_⟩
  · simp only [calculate_seo_score]
    exact score_div_le_100 _ _ (List.countP_le_length _)
  · simp only [calculate_trending_score]
    exact score_div_le_100 _ _ (List.countP_le_length _)

/-- C3 counterexample: on provider failure the fetched list is the single
error marker `"Error: x"`, which contains no usable suggestion, yet both
scorers treat it as one (only the sentinel is excluded), so for topic
`"error"` and keywords `["error"]` both scores are 100, not 0. -/
theorem error_marker_scores_nonzero :
    get_google_autocomplete_suggestions (FetchResult.err "x") 10 = ["Error: x"] ∧
    calculate_trending_score (FetchResult.err "x") "error" = 100 ∧
    calculate_seo_score (FetchResult.err "x") "error" ["error"] = 100 :=
  ⟨by decide, by decide, by decide⟩

/-- C3 amended: if every entry of the fetched list equals the sentinel
`"No suggestions found"` (as happens exactly when the provider succeeds
with no suggestions), the trending score and the SEO score are 0; error
markers, by contrast, participate in matching. -/
theorem sentinel_only_scores_zero (fetch : FetchResult) (topic : String) (K : List String)
    (h : ∀ s ∈ get_google_autocomplete_suggestions fetch 10, s = "No suggestions found") :
    calculate_trending_score fetch topic = 0 ∧ calculate_seo_score fetch topic K = 0 := by
  constructor
  · simp only [calculate_trending_score]
    have hc : (get_google_autocomplete_suggestions fetch 10).countP (fun sug =>
        sug != "No suggestions found" &&
        (splitWords (strLower topic)).any (fun word => substrB word (strLower sug))) = 0 := by
      refine List.countP_eq_zero.mpr ?_
      intro sug hs
      rw [h sug hs]
      simp
    rw [hc]
    simp
  · simp only [calculate_seo_score]
    have hc : K.countP (fun kw =>
        (get_google_autocomplete_suggestions fetch 10).any (fun s =>
          s != "No suggestions found" &&
          (substrB (strLower kw) (strLower s) || substrB (strLower s) (strLower kw)))) = 0 := by
      refine List.countP_eq_zero.mpr ?_
      intro kw _
      rw [List.any_eq_true]
      rintro ⟨s, hs, hf⟩
      rw [h s hs] at hf
      simp at hf
    rw [hc]
    simp

theorem sentinel_only_scores_zero_witness :
    (∀ s ∈ get_google_autocomplete_suggestions (FetchResult.ok []) 10,
      s = "No suggestions found") ∧
    (calculate_trending_score (FetchResult.ok []) "seo" = 0 ∧
      calculate_seo_score (FetchResult.ok []) "seo" ["seo tips"] = 0) :=
  ⟨by decide, sentinel_only_scores_zero (FetchResult.ok []) "seo" ["seo tips"] (by decide)⟩

/-- C5 counterexample: when the provider fails, the fetcher returns the
one-element error-marker list instead of raising, so `get_related_keywords`
merges the marker into its output instead of returning the first N input
keywords unchanged. -/
theorem fetch_error_marker_in_related_keywords :
    get_related_keywords (FetchResult.err "x") "t" ["a"] 10 = ["Error: x", "a"] ∧
    get_related_keywords (FetchResult.err "x") "t" ["a"] 10 ≠ List.take 10 ["a"] :=
  ⟨by decide, by decide⟩

/-- C5 amended: on provider error the fetch yields the one-element list
`["Error: <msg>"]`, and `get_related_keywords` merges it like any
suggestion list: the output is the first-occurrence deduplication of the
error marker followed by the input keywords, truncated to N; in
particular whenever N is positive the first output element is the error
marker, not an input keyword. -/
theorem related_keywords_on_fetch_error (e topic : String) (K : List String) (N : Nat) :
    get_related_keywords (FetchResult.err e) topic K N =
      (dedupFirstAux [] (("Error: " ++ e) :: K)).take N ∧
    (get_related_keywords (FetchResult.err e) topic K (N + 1)).head? =
      some ("Error: " ++ e) := by
  constructor
  · rfl
  · simp [get_related_keywords, get_google_autocomplete_suggestions, dedupFirstAux,
      List.take_succ_cons]

/-- C6 counterexample: with a requested maximum of 0 and a successful empty
provider result, the fetcher returns the one-element sentinel list, whose
length exceeds the requested maximum. -/
theorem fetcher_length_exceeds_zero_budget :
    ¬ ((get_google_autocomplete_suggestions (FetchResult.ok []) 0).length ≤ 0) := by decide

/-- C6 amended: the fetched list's length is at most `max max_results 1`:
the bound `max_results` holds whenever `max_results ≥ 1`, but the sentinel
and error cases return one-element lists even when `max_results = 0`. -/
theorem fetcher_length_le_max (fetch : FetchResult) (N : Nat) :
    (get_google_autocomplete_suggestions fetch N).length ≤ max N 1 := by
  cases fetch with
  | ok raw =>
    simp only [get_google_autocomplete_suggestions]
    split
    · simp
    · exact le_trans (List.length_take_le N raw) (le_max_left N 1)
  | err e => simp [get_google_autocomplete_suggestions]

/-- C8: when the lowercased topic splits into no words (for instance the
empty topic), `suggest_text_improvements` returns the fixed
unable-to-generate fallback message, for any keyword list. -/
theorem empty_topic_fallback (topic : String) (K : List String)
    (h : splitWords (strLower topic) = []) :
    suggest_text_improvements topic K = "Unable to generate suggestions due to an error." := by
  simp [suggest_text_improvements, h]

theorem empty_topic_fallback_witness :
    splitWords (strLower "") = [] ∧
    suggest_text_improvements "" [] = "Unable to generate suggestions due to an error." :=
  ⟨by decide, empty_topic_fallback "" [] (by decide)⟩

/-- C9: the fetcher never returns the empty list (and, being a total
function of the fetch outcome, never raises): on provider failure it
returns the one-element error-marker list, and on success with no
suggestions it returns the one-element sentinel list. -/
theorem fetcher_never_empty_sentinel_error (N : Nat) :
    (∀ fetch, get_google_autocomplete_suggestions fetch N ≠ []) ∧
    (∀ e, get_google_autocomplete_suggestions (FetchResult.err e) N = ["Error: " ++ e]) ∧
    get_google_autocomplete_suggestions (FetchResult.ok []) N = ["No suggestions found"] := by
  refine ⟨?_, fun e => rfl, by simp [get_google_autocomplete_suggestions]⟩
  intro fetch
  cases fetch with
  | ok raw =>
    simp only [get_google_autocomplete_suggestions]
    split
    · simp
    · next hne => exact fun hnil => hne (List.isEmpty_iff.mpr hnil)
  | err e => simp [get_google_autocomplete_suggestions]

/-- C4: the Keyword Merger output has no duplicates (case-sensitive string
identity), has length at most N, is a sublist of the fetched suggestions
followed by the input keywords (preserving first-seen order), and splits
into a block of retained fetched suggestions followed by a block of
retained input keywords not already present among the suggestions. -/
theorem related_keywords_nodup_bounded_ordered (fetch : FetchResult) (topic : String)
    (K : List String) (N : Nat) :
    (get_related_keywords fetch topic K N).Nodup ∧
    (get_related_keywords fetch topic K N).length ≤ N ∧
    (get_related_keywords fetch topic K N).Sublist
      (get_google_autocomplete_suggestions fetch N ++ K) ∧
    ∃ A B, get_related_keywords fetch topic K N = A ++ B ∧
      (∀ a ∈ A, a ∈ get_google_autocomplete_suggestions fetch N) ∧
      (∀ b ∈ B, b ∈ K ∧ b ∉ get_google_autocomplete_suggestions fetch N) := by
  simp only [get_related_keywords]
  refine ⟨?_, ?_, ?_, ?_⟩
  · exact List.Nodup.sublist (List.take_sublist _ _) (nodup_dedupFirstAux _ [])
  · exact List.length_take_le _ _
  · exact (List.take_sublist _ _).trans (sublist_dedupFirstAux _ [])
  · obtain ⟨s₂, he, hm⟩ :=
      dedupFirstAux_append K (get_google_autocomplete_suggestions fetch N) []
    rw [he, List.take_append_eq_append_take]
    refine ⟨_, _, rfl, ?_, ?_⟩
    · intro a ha
      have h1 := List.take_subset _ _ ha
      exact ((mem_dedupFirstAux a _ []).mp h1).1
    · intro b hb
      have h1 := List.take_subset _ _ hb
      have h2 := (mem_dedupFirstAux b _ s₂).mp h1
      refine ⟨h2.1, ?_⟩
      intro hbS
      exact h2.2 ((hm b).mpr (Or.inr hbS))

/-- C10: in `calculate_trending_score`, sentinel entries are excluded from
the matched count but still included in the denominator: when the fetched
list holds exactly one sentinel entry and every other entry contains some
lowercase topic word, the score is `(|S| - 1) * 100 / |S|`, i.e.
`k * 100 / (k + 1)` for `k` matching suggestions plus the sentinel. -/
theorem sentinel_in_trending_denominator (fetch : FetchResult) (topic : String)
    (h1 : (get_google_autocomplete_suggestions fetch 10).count "No suggestions found" = 1)
    (h2 : ∀ s ∈ get_google_autocomplete_suggestions fetch 10,
      s ≠ "No suggestions found" →
      ∃ w ∈ splitWords (strLower topic), w.data <:+: (strLower s).data) :
    calculate_trending_score fetch topic =
      ((get_google_autocomplete_suggestions fetch 10).length - 1) * 100 /
        (get_google_autocomplete_suggestions fetch 10).length := by
  simp only [calculate_trending_score]
  have hpos : 0 < (get_google_autocomplete_suggestions fetch 10).length := by
    refine List.length_pos.mpr ?_
    intro hnil
    rw [hnil] at h1
    simp at h1
  have he : (get_google_autocomplete_suggestions fetch 10).countP (fun sug =>
      sug != "No suggestions found" &&
      (splitWords (strLower topic)).any (fun word => substrB word (strLower sug))) =
      (get_google_autocomplete_suggestions fetch 10).countP
        (fun sug => sug != "No suggestions found") := by
    apply List.countP_congr
    intro s hs
    by_cases hsent : s = "No suggestions found"
    · subst hsent
      simp
    · have hany : (splitWords (strLower topic)).any
          (fun word => substrB word (strLower s)) = true := by
        rw [List.any_eq_true]
        obtain ⟨w, hw, hinf⟩ := h2 s hs hsent
        exact ⟨w, hw, (substrB_iff w (strLower s)).mpr hinf⟩
      simp [hany]
  have hsplit := List.length_eq_countP_add_countP
    (fun sug => sug != "No suggestions found")
    (get_google_autocomplete_suggestions fetch 10)
  have hcompl : (get_google_autocomplete_suggestions fetch 10).countP
      (fun a => decide ¬(a != "No suggestions found") = true) =
      (get_google_autocomplete_suggestions fetch 10).countP
        (fun a => a == "No suggestions found") := by
    apply List.countP_congr
    intro s _
    simp [bne_iff_ne]
  rw [hcompl, ← List.count_eq_countP, h1] at hsplit
  have hcount : (get_google_autocomplete_suggestions fetch 10).countP
      (fun sug => sug != "No suggestions found") =
      (get_google_autocomplete_suggestions fetch 10).length - 1 := by omega
  rw [he, hcount, Nat.max_eq_left hpos]

theorem sentinel_in_trending_denominator_witness :
    (get_google_autocomplete_suggestions
        (FetchResult.ok ["No suggestions found", "seo tips"]) 10).count
      "No suggestions found" = 1 ∧
    calculate_trending_score (FetchResult.ok ["No suggestions found", "seo tips"]) "seo" = 50 :=
  ⟨by decide,
    (sentinel_in_trending_denominator (FetchResult.ok ["No suggestions found", "seo tips"])
      "seo" (by decide) (by decide)).trans (by decide)⟩

/-- A rule-message output of the advisor never equals the fixed looks-good
message: the two strings differ at their first character. -/
theorem sugg_ne_good (x : String) :
    ("Suggestions: " ++ x) ≠ "Keywords and topic look good." := by
  intro hx
  have h2 : (("Suggestions: " : String).data ++ x.data).head? =
      ("Keywords and topic look good." : String).data.head? := by
    rw [← String.data_append, hx]
  have e1 : ("Suggestions: " : String).data = 'S' :: ("uggestions: " : String).data := by
    decide
  have e2 : ("Keywords and topic look good." : String).data.head? = some 'K' := by decide
  rw [e1, List.cons_append, List.head?_cons, e2] at h2
  have h3 : ('S' : Char) = 'K' := Option.some.inj h2
  exact absurd h3 (by decide)

/-- C7: when the lowercased topic splits into at least one word, the
advisor returns the fixed looks-good message exactly when none of its
three rules triggers: some lowercase keyword contains the first lowercase
topic word, no keyword has more than 4 whitespace-delimited words, and
the keyword list is non-empty. -/
theorem looks_good_iff_no_rule_triggers (topic : String) (keywords : List String)
    (h : splitWords (strLower topic) ≠ []) :
    (suggest_text_improvements topic keywords = "Keywords and topic look good." ↔
      ((∃ kw ∈ keywords,
          ((splitWords (strLower topic)).headI).data <:+: (strLower kw).data) ∧
        (∀ k ∈ keywords, (splitWords k).length ≤ 4) ∧
        keywords ≠ [])) := by
  obtain ⟨w0, rest, hw⟩ := List.exists_cons_of_ne_nil h
  rw [hw]
  simp only [List.headI]
  by_cases hA : (keywords.map strLower).any (fun kw => substrB w0 kw) = true
  · by_cases hB : keywords.any (fun k => (splitWords k).length > 4) = true
    · have hne : suggest_text_improvements topic keywords ≠
          "Keywords and topic look good." := by
        simp only [suggest_text_improvements, hw]
        rw [if_neg]
        · exact sugg_ne_good _
        · simp [hA, hB]
      have hB' : ¬ ∀ k ∈ keywords, (splitWords k).length ≤ 4 := by
        rw [List.any_eq_true] at hB
        obtain ⟨k, hk, hgt⟩ := hB
        simp only [decide_eq_true_eq] at hgt
        intro hall
        exact absurd (hall k hk) (not_le.mpr hgt)
      exact iff_of_false hne (fun hrhs => hB' hrhs.2.1)
    · by_cases hC : keywords = []
      · subst hC
        simp at hA
      · have hgood : suggest_text_improvements topic keywords =
            "Keywords and topic look good." := by
          simp only [suggest_text_improvements, hw]
          rw [if_pos]
          simp [hA, Bool.eq_false_iff.mpr hB, List.isEmpty_iff, hC]
        have hA' : ∃ kw ∈ keywords, w0.data <:+: (strLower kw).data := by
          rw [List.any_map, List.any_eq_true] at hA
          obtain ⟨kw, hkw, hsub⟩ := hA
          refine ⟨kw, hkw, ?_⟩
          exact (substrB_iff w0 (strLower kw)).mp (by simpa using hsub)
        have hB' : ∀ k ∈ keywords, (splitWords k).length ≤ 4 := by
          intro k hk
          by_contra hgt
          exact hB (List.any_eq_true.mpr ⟨k, hk, decide_eq_true (not_le.mp hgt)⟩)
        exact iff_of_true hgood ⟨hA', hB', hC⟩
  · have hne : suggest_text_improvements topic keywords ≠
        "Keywords and topic look good." := by
      simp only [suggest_text_improvements, hw]
      rw [if_neg]
      · exact sugg_ne_good _
      · simp [Bool.eq_false_iff.mpr hA]
    have hA' : ¬ ∃ kw ∈ keywords, w0.data <:+: (strLower kw).data := by
      rintro ⟨kw, hkw, hinf⟩
      apply hA
      rw [List.any_map, List.any_eq_true]
      refine ⟨kw, hkw, ?_⟩
      simpa using (substrB_iff w0 (strLower kw)).mpr hinf
    exact iff_of_false hne (fun hrhs => hA' hrhs.1)

theorem looks_good_iff_no_rule_triggers_witness :
    splitWords (strLower "seo tips") ≠ [] ∧
    (suggest_text_improvements "seo tips" ["seo"] = "Keywords and topic look good." ↔
      ((∃ kw ∈ ["seo"],
          ((splitWords (strLower "seo tips")).headI).data <:+: (strLower kw).data) ∧
        (∀ k ∈ ["seo"], (splitWords k).length ≤ 4) ∧
        (["seo"] : List String) ≠ [])) :=
  ⟨by decide, looks_good_iff_no_rule_triggers "seo tips" ["seo"] (by decide)⟩
